import Mathlib

/-!
Verification of the AuditCue Slack-to-Gmail notification relay.

Shallow embedding of the core components:
- OAuth state store (src/unnamed/part_003): one-time-use state tokens.
- Slack service (src/internal/slack/service.go): member listing, capped
  fan-out, per-member email lookups.
- Webhook handler (src/unnamed/part_002): classification and dispatch.
- Gmail service (src/internal/gmail/service.go): retrying delivery.
- Credentials manager (src/internal/auth/handlers.go): keyed storage.

Time is modelled as seconds since an arbitrary epoch (a Nat); network
and file-system effects are modelled by environment records whose fields
give the outcome of each outbound call.
-/

/-! ### OAuth state store (src/unnamed/part_003) -/

/-- OAuthState mirrors the Go struct: the owning user and an expiry instant. -/
structure OAuthState where
  userID : String
  expiry : Nat
deriving DecidableEq

/-- OAuthStateStore mirrors the Go map from token value to OAuthState.
An association list models the map; all operations keep keys unique. -/
structure OAuthStateStore where
  states : List (String × OAuthState)
deriving DecidableEq

/-- Removal of a key, modelling the Go `delete(s.states, state)`. -/
def removeState (l : List (String × OAuthState)) (k : String) :
    List (String × OAuthState) :=
  l.filter (fun p => p.1 != k)

/-- cleanupExpiredStates: delete every entry whose expiry is strictly
before the current instant (Go: `now.After(data.Expiry)`). -/
def cleanupExpiredStates (l : List (String × OAuthState)) (now : Nat) :
    List (String × OAuthState) :=
  l.filter (fun p => !(decide (p.2.expiry < now)))

/-- ValidateState, from the source: look the token up; absent means
invalid; a strictly past expiry means the entry is deleted and the
validation is invalid; otherwise the entry is deleted (one-time use) and
the stored userID is returned. -/
def ValidateState (s : OAuthStateStore) (tok : String) (now : Nat) :
    Option String × OAuthStateStore :=
  match s.states.lookup tok with
  | none => (none, s)
  | some d =>
    if d.expiry < now then
      (none, ⟨removeState s.states tok⟩)
    else
      (some d.userID, ⟨removeState s.states tok⟩)

/-- GenerateState, from the source: store the token with a 15-minute
(900 s) expiry, then clean up expired entries.  The random token value
is an input here, standing for the value drawn from crypto/rand. -/
def GenerateState (s : OAuthStateStore) (tok userID : String) (now : Nat) :
    OAuthStateStore :=
  ⟨cleanupExpiredStates ((tok, ⟨userID, now + 900⟩) :: removeState s.states tok) now⟩

/-- An operation on the state store, for stating trace properties. -/
inductive StateOp where
  | validate (tok : String) (now : Nat)
  | generate (tok userID : String) (now : Nat)
deriving DecidableEq

/-- The store after one operation. -/
def applyOp (s : OAuthStateStore) : StateOp → OAuthStateStore
  | .validate tok now => (ValidateState s tok now).2
  | .generate tok userID now => GenerateState s tok userID now

/-- The store after a sequence of operations. -/
def applyOps (s : OAuthStateStore) : List StateOp → OAuthStateStore
  | [] => s
  | op :: ops => applyOps (applyOp s op) ops

/-- Whether an operation inserts the given token value (only generation
inserts; the crypto/rand entropy makes a repeat of a consumed value
infeasible, which traces assume). -/
def generatesToken (t : String) : StateOp → Bool
  | .validate _ _ => false
  | .generate tok _ _ => tok == t

theorem lookup_filter_none (l : List (String × OAuthState)) (t : String)
    (p : String × OAuthState → Bool) (h : l.lookup t = none) :
    (l.filter p).lookup t = none := by
  induction l with
  | nil => simp [List.filter]
  | cons a as ih =>
    rw [List.lookup] at h
    cases hk : (t == a.1) with
    | true => rw [hk] at h; exact absurd h (by simp)
    | false =>
      rw [hk] at h
      rw [List.filter]
      cases p a with
      | true => rw [List.lookup, hk]; exact ih h
      | false => exact ih h

theorem lookup_removeState_self (l : List (String × OAuthState)) (t : String) :
    (removeState l t).lookup t = none := by
  induction l with
  | nil => simp [removeState, List.filter]
  | cons a as ih =>
    rw [removeState, List.filter]
    cases hk : (a.1 != t) with
    | false =>
      exact ih
    | true =>
      rw [List.lookup]
      have hne : (t == a.1) = false := by
        simp only [bne, Bool.not_eq_true'] at hk
        simp only [beq_eq_false_iff_ne] at hk ⊢
        exact fun he => hk he.symm
      rw [hne]
      exact ih

theorem lookup_removeState_none (l : List (String × OAuthState)) (t k : String)
    (h : l.lookup t = none) : (removeState l k).lookup t = none :=
  lookup_filter_none l t _ h

/-- Validation never inserts entries: an absent token stays absent. -/
theorem validate_preserves_absent (s : OAuthStateStore) (t tok : String) (now : Nat)
    (h : s.states.lookup t = none) :
    ((ValidateState s tok now).2).states.lookup t = none := by
  rw [ValidateState]
  cases hl : s.states.lookup tok with
  | none => exact h
  | some d =>
    by_cases hexp : d.expiry < now
    · simp only [hexp, if_true]
      exact lookup_removeState_none s.states t tok h
    · simp only [hexp, if_false]
      exact lookup_removeState_none s.states t tok h

/-- Generation of a fresh (different) token keeps an absent token absent. -/
theorem generate_preserves_absent (s : OAuthStateStore) (t tok userID : String)
    (now : Nat) (hne : (tok == t) = false) (h : s.states.lookup t = none) :
    ((GenerateState s tok userID now).states).lookup t = none := by
  rw [GenerateState]
  apply lookup_filter_none
  rw [List.lookup]
  have : (t == tok) = false := by
    simp only [beq_eq_false_iff_ne] at hne ⊢
    exact fun he => hne he.symm
  rw [this]
  exact lookup_removeState_none s.states t tok h

/-- Absence of a token is preserved by any trace whose generations all
use other token values. -/
theorem applyOps_preserves_absent (t : String) (ops : List StateOp) :
    ∀ s : OAuthStateStore, (∀ op ∈ ops, generatesToken t op = false) →
    s.states.lookup t = none → ((applyOps s ops).states).lookup t = none := by
  induction ops with
  | nil => exact fun s _ h => h
  | cons op ops ih =>
    intro s hfresh h
    rw [applyOps]
    apply ih (applyOp s op) (fun o ho => hfresh o (List.mem_cons_of_mem op ho))
    cases op with
    | validate tok now => exact validate_preserves_absent s t tok now h
    | generate tok userID now =>
      have hg := hfresh (.generate tok userID now) (List.mem_cons_self _ _)
      rw [generatesToken] at hg
      exact generate_preserves_absent s t tok userID now hg h

/-- Claim C2: once a state token validates successfully, every later
validation of the same token value is invalid, at every later instant
and after any further operations (whose generated tokens are fresh, per
the crypto/rand entropy assumption). -/
theorem validateState_at_most_once (s : OAuthStateStore) (t : String) (now : Nat)
    (uid : String) (s₁ : OAuthStateStore)
    (hsucc : ValidateState s t now = (some uid, s₁))
    (ops : List StateOp) (hfresh : ∀ op ∈ ops, generatesToken t op = false)
    (now₂ : Nat) :
    (ValidateState (applyOps s₁ ops) t now₂).1 = none := by
  have habs : s₁.states.lookup t = none := by
    unfold ValidateState at hsucc
    cases hl : s.states.lookup t with
    | none => simp only [hl] at hsucc; simp at hsucc
    | some d =>
      simp only [hl] at hsucc
      by_cases hexp : d.expiry < now
      · simp only [if_pos hexp, Prod.mk.injEq] at hsucc
        exact absurd hsucc.1 (by simp)
      · simp only [if_neg hexp, Prod.mk.injEq] at hsucc
        rw [← hsucc.2]
        exact lookup_removeState_self s.states t
  have habs₂ : ((applyOps s₁ ops).states).lookup t = none :=
    applyOps_preserves_absent t ops s₁ hfresh habs
  rw [ValidateState, habs₂]

/-- Witness for C2 at a concrete store: the token validates once and a
later validation of the same value, after a further operation and much
later in time, is invalid. -/
theorem validateState_at_most_once_witness :
    (ValidateState ⟨[("tok", ⟨"alice", 100⟩)]⟩ "tok" 10).1 = some "alice" ∧
    (ValidateState (applyOps ⟨[]⟩ [StateOp.validate "tok" 20]) "tok" 99999).1 = none := by
  refine ⟨by decide, ?_⟩
  have h := validateState_at_most_once ⟨[("tok", ⟨"alice", 100⟩)]⟩ "tok" 10 "alice" ⟨[]⟩
    (by decide) [StateOp.validate "tok" 20] (by decide) 99999
  exact h

/-- Claim C8: a token whose expiry lies strictly before the validation
instant is reported invalid even if never previously validated, and the
expired entry is removed from the store. -/
theorem validateState_expired (s : OAuthStateStore) (t : String) (now : Nat)
    (d : OAuthState) (hfound : s.states.lookup t = some d)
    (hexp : d.expiry < now) :
    (ValidateState s t now).1 = none ∧
    ((ValidateState s t now).2).states.lookup t = none := by
  simp only [ValidateState, hfound]
  rw [if_pos hexp]
  exact ⟨rfl, lookup_removeState_self s.states t⟩

/-- Witness for C8: a never-validated token stored with expiry 100,
presented at instant 101, is invalid and gets removed. -/
theorem validateState_expired_witness :
    (ValidateState ⟨[("tok", ⟨"alice", 100⟩)]⟩ "tok" 101).1 = none ∧
    ((ValidateState ⟨[("tok", ⟨"alice", 100⟩)]⟩ "tok" 101).2).states.lookup "tok" = none :=
  validateState_expired ⟨[("tok", ⟨"alice", 100⟩)]⟩ "tok" 101 ⟨"alice", 100⟩
    (by decide) (by decide)

/-! ### Slack service (src/internal/slack/service.go) -/

/-- The profile object inside a users.info response; the email field may
be absent. -/
structure ProfileObj where
  email : Option String
deriving DecidableEq

/-- The user object inside a users.info response. -/
structure UserObj where
  profile : Option ProfileObj
deriving DecidableEq

/-- A decoded users.info response: the ok flag and the optional user
object (absent or mistyped fields decode to none). -/
structure UserInfoResponse where
  ok : Bool
  user : Option UserObj
deriving DecidableEq

/-- A decoded conversations.members response. -/
structure MembersResponse where
  ok : Bool
  members : Option (List String)
deriving DecidableEq

/-- Outcomes of the outbound Slack calls and the credential lookup.  An
error value models a transport, read or JSON-parse failure of that call;
responses are the decoded bodies. -/
structure SlackEnv where
  getSlackToken : String → Except String String
  usersInfo : String → Except String UserInfoResponse
  listMembers : String → Except String MembersResponse

/-- getUserEmail, from the source: token lookup, users.info call, ok
check, user and profile extraction; a present email is returned, an
absent email field yields the empty string with no error. -/
def getUserEmail (env : SlackEnv) (ownerID slackUserID : String) :
    Except String String :=
  match env.getSlackToken ownerID with
  | .error e => .error ("failed to get Slack token: " ++ e)
  | .ok _ =>
    match env.usersInfo slackUserID with
    | .error e => .error e
    | .ok resp =>
      if !resp.ok then .error "failed to fetch user info"
      else
        match resp.user with
        | none => .error "user object not found"
        | some u =>
          match u.profile with
          | none => .error "profile object not found"
          | some p =>
            match p.email with
            | some email => .ok email
            | none => .ok ""

/-- The fan-in collection loop of getUserEmails: results are read off
the result channel one by one; an errored lookup is skipped, an empty
email is skipped, every other email is appended in arrival order.  The
source collects in nondeterministic channel order; this definition takes
the arrival list as input, so every arrival order is covered. -/
def collectEmails : List (Except String String) → List String
  | [] => []
  | .error _ :: rs => collectEmails rs
  | .ok e :: rs => if e != "" then e :: collectEmails rs else collectEmails rs

/-- getUserEmails, from the source: fan out one getUserEmail call per
member identifier and collect the results; the function always returns
ok (the Go function returns a nil error on every path). -/
def getUserEmails (env : SlackEnv) (ownerID : String) (userIDs : List String) :
    Except String (List String) :=
  .ok (collectEmails (userIDs.map (fun id => getUserEmail env ownerID id)))

/-- Which lookup results survive the fan-in: non-error, non-empty. -/
def emailKeep : Except String String → Option String
  | .ok e => if e == "" then none else some e
  | .error _ => none

/-- GetChannelMembers, from the source: token lookup, member listing, ok
and members-array checks, then the cap of 50 member identifiers and the
per-member email fan-out. -/
def GetChannelMembers (env : SlackEnv) (ownerID channelID : String) :
    Except String (List String) :=
  match env.getSlackToken ownerID with
  | .error e => .error ("failed to get Slack token: " ++ e)
  | .ok _ =>
    match env.listMembers channelID with
    | .error e => .error e
    | .ok resp =>
      if !resp.ok then .error "failed to fetch members"
      else
        match resp.members with
        | none => .error "members array not found or invalid format"
        | some ids =>
          let capped := if ids.length > 50 then ids.take 50 else ids
          getUserEmails env ownerID capped

theorem collectEmails_eq_filterMap (results : List (Except String String)) :
    collectEmails results = results.filterMap emailKeep := by
  induction results with
  | nil => rfl
  | cons r rs ih =>
    cases r with
    | error e => simp [collectEmails, emailKeep, List.filterMap_cons, ih]
    | ok e =>
      by_cases he : e = ""
      · simp [collectEmails, emailKeep, he, List.filterMap_cons, ih]
      · have hne : (e == "") = false := beq_eq_false_iff_ne.mpr he
        simp [collectEmails, emailKeep, List.filterMap_cons, ih, hne, bne]

/-- Claim C7: the per-member fan-in never fails as a whole: for every
member list the aggregate returns ok, and the returned list is exactly
the per-member results with errored lookups and empty emails excluded,
in collection order. -/
theorem getUserEmails_never_fails (env : SlackEnv) (ownerID : String)
    (userIDs : List String) :
    getUserEmails env ownerID userIDs =
      .ok ((userIDs.map (fun id => getUserEmail env ownerID id)).filterMap emailKeep) := by
  rw [getUserEmails, collectEmails_eq_filterMap]

/-! ### Webhook handler (src/unnamed/part_002) -/

/-- Modelled from the spec: the SlackChallenge struct declaration itself
is absent from src (src/scripts/setup.sh only stubs
internal/slack/models.go); its fields follow §6 of the spec
(`type:"url_verification", challenge:string`) and the uses in the
handler source. -/
structure SlackChallenge where
  type : String
  challenge : String
deriving DecidableEq

/-- Modelled from the spec: the inner event object of a Slack event
envelope, per §6 (`event:{type, channel, user, text, subtype?, bot_id?}`)
and the field uses in the handler source; absent optional fields decode
to the empty string. -/
structure SlackInnerEvent where
  type : String
  channel : String
  user : String
  text : String
  subtype : String
  botID : String
deriving DecidableEq

/-- Modelled from the spec: the outer Slack event envelope, per §6
(`type:"event_callback", team_id:string, event:{...}`) and the field
uses in the handler source. -/
structure SlackEvent where
  type : String
  teamID : String
  event : SlackInnerEvent
deriving DecidableEq

/-- The two decodes the handler applies to one raw body: the result of
unmarshalling into SlackChallenge and into SlackEvent (none models a
JSON parse error of that unmarshal). -/
structure RawPayload where
  asChallenge : Option SlackChallenge
  asEvent : Option SlackEvent
deriving DecidableEq

/-- The email-dispatch call the handler launches in the background:
owning user, recipient list, the comma-joined form, subject and body. -/
structure DispatchCall where
  userID : String
  recipients : List String
  recipientsStr : String
  subject : String
  body : String
deriving DecidableEq

/-- The observable outcome of one webhook request: the HTTP response
kind and, on the dispatch path, the launched email call. -/
inductive WebhookResult where
  | badRequest (msg : String)
  | notFound (msg : String)
  | internalError (msg : String)
  | challengeResponse (challenge : String)
  | okIgnored
  | okNoRecipients
  | okDispatched (d : DispatchCall)
deriving DecidableEq

/-- The HTTP status of each outcome, from the source. -/
def statusOf : WebhookResult → Nat
  | .badRequest _ => 400
  | .notFound _ => 404
  | .internalError _ => 500
  | _ => 200

/-- The collaborators of the webhook handler: the Slack service
environment and the team-to-user mapping. -/
structure HandlerEnv where
  slack : SlackEnv
  getUserIDForTeam : String → Option String

/-- The event_callback path of HandleWebhook, from the source: parse
failure is a bad request; only event_callback envelopes act; a missing
team identifier is a bad request; an unmapped team is not found; only
inner "message" events act, and bot or edit markers are ignored; the
sender email is resolved best-effort (the Go variable holds "" when the
lookup errors); a failing member listing is an internal error; the
recipients are the collected emails with the sender email and empty
strings filtered out; an empty remainder answers 200 with no dispatch;
otherwise the email dispatch is launched. -/
def handleEvent (env : HandlerEnv) : Option SlackEvent → WebhookResult
  | none => .badRequest "Invalid event JSON"
  | some event =>
    if event.type == "event_callback" then
      if event.teamID == "" then .badRequest "No team ID in event"
      else
        match env.getUserIDForTeam event.teamID with
        | none => .notFound "Integration not found"
        | some userID =>
          if event.event.type == "message" then
            if event.event.botID != "" || event.event.subtype == "message_changed"
                || event.event.subtype == "bot_message" then .okIgnored
            else
              let senderEmail :=
                match getUserEmail env.slack userID event.event.user with
                | .ok e => e
                | .error _ => ""
              match GetChannelMembers env.slack userID event.event.channel with
              | .error _ => .internalError "Error fetching users"
              | .ok emails =>
                let recipients := emails.filter (fun e => e != senderEmail && e != "")
                if recipients.length == 0 then .okNoRecipients
                else
                  .okDispatched
                    { userID := userID
                      recipients := recipients
                      recipientsStr := String.intercalate "," recipients
                      subject := "New Slack Message in Channel"
                      body := "New Slack message received in channel from user "
                        ++ event.event.user ++ ":\n\n" ++ event.event.text }
          else .okIgnored
    else .okIgnored

/-- HandleWebhook, from the source: the challenge decode is tried first
and echoed when its type marker matches; otherwise the event path runs. -/
def HandleWebhook (env : HandlerEnv) (p : RawPayload) : WebhookResult :=
  match p.asChallenge with
  | some c =>
    if c.type == "url_verification" then .challengeResponse c.challenge
    else handleEvent env p.asEvent
  | none => handleEvent env p.asEvent

/-- Claim C3: a payload that decodes as a challenge with the
url_verification type marker is answered with status 200 and a body
whose challenge field is exactly the input challenge string, and no
other action (no dispatch outcome) is taken. -/
theorem challenge_echoed (env : HandlerEnv) (p : RawPayload) (c : SlackChallenge)
    (hc : p.asChallenge = some c) (ht : c.type = "url_verification") :
    HandleWebhook env p = .challengeResponse c.challenge ∧
    statusOf (HandleWebhook env p) = 200 := by
  have hb : (c.type == "url_verification") = true := beq_iff_eq.mpr ht
  simp only [HandleWebhook, hc]
  rw [if_pos hb]
  exact ⟨rfl, rfl⟩

/-- A concrete collaborator environment whose outbound calls all fail
and whose team mapping is empty. -/
def envNoNet : HandlerEnv :=
  ⟨⟨fun _ => .error "no network", fun _ => .error "no network",
    fun _ => .error "no network"⟩, fun _ => none⟩

/-- Witness for C3: a concrete challenge payload (its body also decodes
as an event envelope with the same type marker, as with the Go decoder)
is echoed byte for byte. -/
theorem challenge_echoed_witness :
    HandleWebhook envNoNet
      ⟨some ⟨"url_verification", "abc123xyz"⟩,
       some ⟨"url_verification", "", ⟨"", "", "", "", "", ""⟩⟩⟩ =
      .challengeResponse "abc123xyz" :=
  (challenge_echoed envNoNet
    ⟨some ⟨"url_verification", "abc123xyz"⟩,
     some ⟨"url_verification", "", ⟨"", "", "", "", "", ""⟩⟩⟩
    ⟨"url_verification", "abc123xyz"⟩ rfl rfl).1

/-- When the challenge decode does not carry the url_verification
marker, HandleWebhook runs the event path. -/
theorem handleWebhook_eq_handleEvent (env : HandlerEnv) (p : RawPayload)
    (hch : ∀ c, p.asChallenge = some c → c.type ≠ "url_verification") :
    HandleWebhook env p = handleEvent env p.asEvent := by
  rw [HandleWebhook]
  cases hc : p.asChallenge with
  | none => rfl
  | some c =>
    have hfalse : (c.type == "url_verification") = false :=
      beq_eq_false_iff_ne.mpr (hch c hc)
    simp [hfalse]

/-- Claim C4 as stated is false at a concrete input: an event_callback
whose inner event kind is "reaction_added" (not "message") is answered
with 400 when the team identifier is absent and with 404 when the team
is unmapped, not with a success status. -/
theorem nonmessage_callback_counterexample :
    HandleWebhook envNoNet
      ⟨some ⟨"event_callback", ""⟩,
       some ⟨"event_callback", "", ⟨"reaction_added", "C1", "U1", "hi", "", ""⟩⟩⟩ =
      .badRequest "No team ID in event" ∧
    HandleWebhook envNoNet
      ⟨some ⟨"event_callback", ""⟩,
       some ⟨"event_callback", "T9", ⟨"reaction_added", "C1", "U1", "hi", "", ""⟩⟩⟩ =
      .notFound "Integration not found" ∧
    statusOf (HandleWebhook envNoNet
      ⟨some ⟨"event_callback", ""⟩,
       some ⟨"event_callback", "", ⟨"reaction_added", "C1", "U1", "hi", "", ""⟩⟩⟩) ≠ 200 ∧
    statusOf (HandleWebhook envNoNet
      ⟨some ⟨"event_callback", ""⟩,
       some ⟨"event_callback", "T9", ⟨"reaction_added", "C1", "U1", "hi", "", ""⟩⟩⟩) ≠ 200 := by
  exact ⟨rfl, rfl, by decide, by decide⟩

/-- Claim C4 amended: an event_callback whose inner event kind is not
"message" is answered with success status 200 and no action, provided
the team identifier is nonempty and maps to a user; a missing team
identifier is answered 400 and an unmapped team 404 before the inner
kind is examined. -/
theorem nonmessage_callback_ignored (env : HandlerEnv) (p : RawPayload)
    (event : SlackEvent) (uid : String)
    (hch : ∀ c, p.asChallenge = some c → c.type ≠ "url_verification")
    (he : p.asEvent = some event)
    (htype : event.type = "event_callback")
    (hteam : event.teamID ≠ "")
    (hmap : env.getUserIDForTeam event.teamID = some uid)
    (hmsg : event.event.type ≠ "message") :
    HandleWebhook env p = .okIgnored ∧ statusOf (HandleWebhook env p) = 200 := by
  have h1 : (event.type == "event_callback") = true := beq_iff_eq.mpr htype
  have h2 : (event.teamID == "") = false := beq_eq_false_iff_ne.mpr hteam
  have h3 : (event.event.type == "message") = false := beq_eq_false_iff_ne.mpr hmsg
  have hweb : HandleWebhook env p = .okIgnored := by
    rw [handleWebhook_eq_handleEvent env p hch, he]
    simp [handleEvent, h1, h2, hmap, h3]
  exact ⟨hweb, by rw [hweb]; rfl⟩

/-- A concrete environment mapping team T1 to owner1 with no reachable
network. -/
def envMapped : HandlerEnv :=
  ⟨⟨fun _ => .error "no network", fun _ => .error "no network",
    fun _ => .error "no network"⟩,
   fun t => if t == "T1" then some "owner1" else none⟩

/-- Witness for the amended C4: a mapped team with a reaction_added
inner event gets a 200 and no action. -/
theorem nonmessage_callback_ignored_witness :
    HandleWebhook envMapped
      ⟨some ⟨"event_callback", ""⟩,
       some ⟨"event_callback", "T1", ⟨"reaction_added", "C1", "U1", "hi", "", ""⟩⟩⟩ =
      .okIgnored := by
  exact (nonmessage_callback_ignored envMapped
    ⟨some ⟨"event_callback", ""⟩,
     some ⟨"event_callback", "T1", ⟨"reaction_added", "C1", "U1", "hi", "", ""⟩⟩⟩
    ⟨"event_callback", "T1", ⟨"reaction_added", "C1", "U1", "hi", "", ""⟩⟩ "owner1"
    (by intro c hc; injection hc with h; rw [← h]; decide)
    rfl rfl (by decide) rfl (by decide)).1

/-- Claim C5: when the member listing succeeds with n identifiers, for
n > 50 the fan-out processes exactly the first 50 identifiers in
arrival order (the remaining n - 50 are dropped) and the excess raises
no error; for n at most 50 all identifiers are processed. -/
theorem getChannelMembers_caps_at_50 (env : SlackEnv)
    (ownerID channelID tok : String) (resp : MembersResponse) (ids : List String)
    (htok : env.getSlackToken ownerID = .ok tok)
    (hresp : env.listMembers channelID = .ok resp)
    (hok : resp.ok = true)
    (hmem : resp.members = some ids) :
    (ids.length > 50 →
      GetChannelMembers env ownerID channelID =
        .ok (((ids.take 50).map (fun id => getUserEmail env ownerID id)).filterMap
          emailKeep) ∧
      (ids.take 50).length = 50) ∧
    (ids.length ≤ 50 →
      GetChannelMembers env ownerID channelID =
        .ok ((ids.map (fun id => getUserEmail env ownerID id)).filterMap emailKeep)) ∧
    (GetChannelMembers env ownerID channelID).isOk = true := by
  have hmain : GetChannelMembers env ownerID channelID =
      getUserEmails env ownerID (if ids.length > 50 then ids.take 50 else ids) := by
    simp [GetChannelMembers, htok, hresp, hok, hmem]
  refine ⟨fun hgt => ⟨?_, ?_⟩, fun hle => ?_, ?_⟩
  · rw [hmain, if_pos hgt, getUserEmails, collectEmails_eq_filterMap]
  · rw [List.length_take]
    exact Nat.min_eq_left (Nat.le_of_lt hgt)
  · rw [hmain, if_neg (Nat.not_lt.mpr hle), getUserEmails, collectEmails_eq_filterMap]
  · rw [hmain, getUserEmails]
    rfl

/-- Fifty-one identical member identifiers, for the cap witness. -/
def memberIDs51 : List String := List.replicate 51 "member"

/-- A concrete Slack environment with a 51-member channel, every member
resolving to the same published email. -/
def envBig : SlackEnv :=
  ⟨fun _ => .ok "xoxb-token",
   fun _ => .ok ⟨true, some ⟨some ⟨some "member@x.com"⟩⟩⟩,
   fun _ => .ok ⟨true, some memberIDs51⟩⟩

/-- Witness for C5: with 51 members the fan-out covers exactly the
first 50 identifiers and the call succeeds. -/
theorem getChannelMembers_caps_at_50_witness :
    GetChannelMembers envBig "owner1" "C1" =
      .ok (((memberIDs51.take 50).map
        (fun id => getUserEmail envBig "owner1" id)).filterMap emailKeep) ∧
    (memberIDs51.take 50).length = 50 := by
  exact (getChannelMembers_caps_at_50 envBig "owner1" "C1" "xoxb-token"
    ⟨true, some memberIDs51⟩ memberIDs51 rfl rfl rfl rfl).1 (by decide)

/-- The recipient-list shape claimed by the spec, stated for comparison
with the code: no duplicates, and membership is exactly the collected
per-member emails minus the resolved sender email. -/
def specRecipientList (emails : List String) (senderEmail : String)
    (recipients : List String) : Prop :=
  recipients.Nodup ∧ ∀ e, e ∈ recipients ↔ (e ∈ emails ∧ e ≠ senderEmail)

/-- A concrete environment where channel C1 has members U2 and U3 who
share one published email, the sender U1 resolving to a different one;
team T1 maps to owner1. -/
def envDup : HandlerEnv :=
  ⟨⟨fun _ => .ok "xoxb-token",
    fun u => if u == "U1" then .ok ⟨true, some ⟨some ⟨some "b@x.com"⟩⟩⟩
             else .ok ⟨true, some ⟨some ⟨some "a@x.com"⟩⟩⟩,
    fun _ => .ok ⟨true, some ["U2", "U3"]⟩⟩,
   fun t => if t == "T1" then some "owner1" else none⟩

/-- A concrete message event from U1 in channel C1 of team T1 (its body
also decodes as a challenge struct without the verification marker). -/
def pMsg : RawPayload :=
  ⟨some ⟨"event_callback", ""⟩,
   some ⟨"event_callback", "T1", ⟨"message", "C1", "U1", "hi", "", ""⟩⟩⟩

/-- Claim C1 as stated is false at a concrete input: two members share
one email, the dispatched recipient list contains that email twice, so
it is not the duplicate-free union the spec describes. -/
theorem recipients_not_deduplicated :
    HandleWebhook envDup pMsg = .okDispatched
      ⟨"owner1", ["a@x.com", "a@x.com"], "a@x.com,a@x.com",
       "New Slack Message in Channel",
       "New Slack message received in channel from user U1:\n\nhi"⟩ ∧
    getUserEmail envDup.slack "owner1" "U1" = .ok "b@x.com" ∧
    GetChannelMembers envDup.slack "owner1" "C1" = .ok ["a@x.com", "a@x.com"] ∧
    ¬ specRecipientList ["a@x.com", "a@x.com"] "b@x.com" ["a@x.com", "a@x.com"] := by
  refine ⟨by decide, rfl, rfl, ?_⟩
  intro h
  exact absurd h.1 (by decide)

/-- Claim C1 amended: the dispatched recipient list is the collected
per-member emails in collection order with the resolved sender email and
empty strings filtered out; duplicates among distinct members are kept.
In particular the list never contains the resolved sender email (when
the sender lookup succeeded) and never contains the empty string. -/
theorem recipients_exclude_sender (env : HandlerEnv) (p : RawPayload)
    (event : SlackEvent) (uid senderEmail : String) (d : DispatchCall)
    (hch : ∀ c, p.asChallenge = some c → c.type ≠ "url_verification")
    (he : p.asEvent = some event)
    (htype : event.type = "event_callback")
    (hteam : event.teamID ≠ "")
    (hmap : env.getUserIDForTeam event.teamID = some uid)
    (hsender : getUserEmail env.slack uid event.event.user = .ok senderEmail)
    (hdisp : HandleWebhook env p = .okDispatched d) :
    senderEmail ∉ d.recipients ∧ (∀ e ∈ d.recipients, e ≠ "") ∧
    ∃ emails, GetChannelMembers env.slack uid event.event.channel = .ok emails ∧
      d.recipients = emails.filter (fun e => e != senderEmail && e != "") := by
  have h1 : (event.type == "event_callback") = true := beq_iff_eq.mpr htype
  have h2 : (event.teamID == "") = false := beq_eq_false_iff_ne.mpr hteam
  rw [handleWebhook_eq_handleEvent env p hch, he] at hdisp
  simp only [handleEvent, h1, h2, hmap, hsender, if_true] at hdisp
  cases hmt : (event.event.type == "message") with
  | false => rw [hmt] at hdisp; simp at hdisp
  | true =>
    rw [hmt] at hdisp
    simp only [if_true] at hdisp
    cases hbot : (event.event.botID != "" || event.event.subtype == "message_changed"
        || event.event.subtype == "bot_message") with
    | true => rw [hbot] at hdisp; simp at hdisp
    | false =>
      rw [hbot] at hdisp
      simp only [Bool.false_eq_true, if_false] at hdisp
      cases hgc : GetChannelMembers env.slack uid event.event.channel with
      | error e => rw [hgc] at hdisp; simp at hdisp
      | ok emails =>
        rw [hgc] at hdisp
        simp only [] at hdisp
        cases hlen : ((emails.filter
            (fun e => e != senderEmail && e != "")).length == 0) with
        | true => rw [hlen] at hdisp; simp at hdisp
        | false =>
          rw [hlen] at hdisp
          simp only [Bool.false_eq_true, if_false,
            WebhookResult.okDispatched.injEq] at hdisp
          have hrec : d.recipients =
              emails.filter (fun e => e != senderEmail && e != "") := by
            rw [← hdisp]
          refine ⟨?_, ?_, emails, rfl, hrec⟩
          · rw [hrec]
            intro hmem
            have := (List.mem_filter.mp hmem).2
            simp [bne_self_eq_false] at this
          · rw [hrec]
            intro e hmem
            have := (List.mem_filter.mp hmem).2
            have h3 := (Bool.and_eq_true _ _).mp this
            exact fun heq => by
              rw [heq] at h3
              simp [bne_self_eq_false] at h3

/-- The scenario environment of §8 of the spec: channel C1 has members
U1, U2, U3 with emails a@x.com, b@x.com and none; team T1 maps to
owner1. -/
def envScenario : HandlerEnv :=
  ⟨⟨fun _ => .ok "xoxb-token",
    fun u => if u == "U1" then .ok ⟨true, some ⟨some ⟨some "a@x.com"⟩⟩⟩
             else if u == "U2" then .ok ⟨true, some ⟨some ⟨some "b@x.com"⟩⟩⟩
             else .ok ⟨true, some ⟨some ⟨none⟩⟩⟩,
    fun _ => .ok ⟨true, some ["U1", "U2", "U3"]⟩⟩,
   fun t => if t == "T1" then some "owner1" else none⟩

/-- Witness for the amended C1 at the §8 scenario: the dispatched list
is exactly the filter result and contains neither the sender email nor
the empty string. -/
theorem recipients_exclude_sender_witness :
    "a@x.com" ∉ (["b@x.com"] : List String) ∧
    (∀ e ∈ (["b@x.com"] : List String), e ≠ "") ∧
    ∃ emails, GetChannelMembers envScenario.slack "owner1" "C1" = .ok emails ∧
      (["b@x.com"] : List String) =
        emails.filter (fun e => e != "a@x.com" && e != "") := by
  have h := recipients_exclude_sender envScenario pMsg
    ⟨"event_callback", "T1", ⟨"message", "C1", "U1", "hi", "", ""⟩⟩
    "owner1" "a@x.com"
    ⟨"owner1", ["b@x.com"], "b@x.com", "New Slack Message in Channel",
     "New Slack message received in channel from user U1:\n\nhi"⟩
    (by intro c hc; injection hc with hcc; rw [← hcc]; decide)
    rfl rfl (by decide) rfl rfl (by decide)
  exact h

/-! ### Gmail service (src/internal/gmail/service.go) -/

/-- The retry loop of SendEmail, from the source shape
`for attempt := 1; attempt <= 3; attempt++` with `time.Sleep(backoff)`
then `backoff *= 2` after a failed non-final attempt: f gives the
outcome of each numbered attempt, left counts the retries still allowed
after the current attempt, and the returned list records the sleep
durations (in seconds) in order. -/
def retryAux (f : Nat → Except String α) (attempt backoff : Nat) :
    Nat → Except String α × List Nat
  | 0 => (f attempt, [])
  | left + 1 =>
    match f attempt with
    | .ok a => (.ok a, [])
    | .error _ =>
      let r := retryAux f (attempt + 1) (backoff * 2) left
      (r.1, backoff :: r.2)

/-- A three-attempt retry loop starting at attempt 1 with a 1 s backoff,
as both loops in SendEmail. -/
def retry3 (f : Nat → Except String α) : Except String α × List Nat :=
  retryAux f 1 1 2

/-- Outcomes of the outbound Gmail calls: client acquisition and message
submission indexed by attempt number, and the profile lookup. -/
structure GmailEnv where
  getGmailService : Nat → Except String Unit
  getProfile : Except String String
  send : Nat → Except String String

/-- The RFC-822-style message constructed by SendEmail (the base64url
wire encoding applied afterwards is not modelled; no claim concerns
it). -/
def buildMime (fromEmail toAddr subject messageText : String) : String :=
  "From: " ++ fromEmail ++ "\r\nTo: " ++ toAddr ++ "\r\nSubject: " ++ subject ++
    "\r\nMIME-Version: 1.0\r\nContent-Type: text/plain; charset=\"UTF-8\"\r\n\r\n" ++
    messageText

/-- The outcome of one SendEmail call: the result (message identifier or
error) and the sleeps performed by the acquisition loop and by the
submission loop. -/
structure SendEmailTrace where
  result : Except String String
  acquireSleeps : List Nat
  sendSleeps : List Nat

/-- SendEmail, from the source: acquire the Gmail client with a
three-attempt 1s/2s retry loop; on persistent failure return an error;
then resolve the profile for the From address; build the message; then
submit with an independent three-attempt 1s/2s retry loop, returning
the message identifier or an error after the final attempt. -/
def SendEmail (env : GmailEnv) (toAddr subject messageText : String) :
    SendEmailTrace :=
  let acq := retry3 env.getGmailService
  match acq.1 with
  | .error e =>
    ⟨.error ("unable to retrieve Gmail service after retries: " ++ e), acq.2, []⟩
  | .ok _ =>
    match env.getProfile with
    | .error e => ⟨.error ("unable to get user profile: " ++ e), acq.2, []⟩
    | .ok fromEmail =>
      let _msg := buildMime fromEmail toAddr subject messageText
      let sub := retry3 env.send
      match sub.1 with
      | .error e => ⟨.error ("unable to send email after retries: " ++ e), acq.2, sub.2⟩
      | .ok msgID => ⟨.ok msgID, acq.2, sub.2⟩

/-- The retry loop sleeps 1 s before attempt 2 and 2 s before attempt 3,
makes at most three attempts, its result is the outcome of its final
attempt, every earlier attempt failed, and an error result means all
three attempts ran. -/
theorem retry3_spec (f : Nat → Except String α) :
    (retry3 f).2.length ≤ 2 ∧
    (retry3 f).2 = List.take (retry3 f).2.length [1, 2] ∧
    (retry3 f).1 = f ((retry3 f).2.length + 1) ∧
    (∀ i, 1 ≤ i → i ≤ (retry3 f).2.length → ∃ e, f i = .error e) ∧
    (∀ e, (retry3 f).1 = .error e → (retry3 f).2 = [1, 2]) := by
  cases h1 : f 1 with
  | ok a =>
    simp only [retry3, retryAux, h1]
    refine ⟨by simp, by simp, by simp [h1], ?_, ?_⟩
    · intro i hi1 hi2
      simp at hi2
      omega
    · intro e he
      simp at he
  | error e1 =>
    cases h2 : f 2 with
    | ok a =>
      simp only [retry3, retryAux, h1, h2]
      refine ⟨by simp, by simp, by simp [h2], ?_, ?_⟩
      · intro i hi1 hi2
        simp at hi2
        have : i = 1 := by omega
        exact ⟨e1, by rw [this, h1]⟩
      · intro e he
        simp at he
    | error e2 =>
      simp only [retry3, retryAux, h1, h2]
      refine ⟨by simp, by simp, by simp, ?_, fun e _ => by simp⟩
      intro i hi1 hi2
      simp at hi2
      interval_cases i
      · exact ⟨e1, h1⟩
      · exact ⟨e2, h2⟩

/-- Claim C6: in SendEmail the client acquisition and the message
submission each run at most 3 attempts with their own separate budget;
within each loop the sleep before the second attempt is 1 s and before
the third 2 s (the recorded sleeps are a prefix of [1, 2], so at most
two sleeps, hence at most three attempts); a persistent failure of all
three acquisition attempts, or of all three submission attempts, yields
an error result. -/
theorem sendEmail_retry_discipline (env : GmailEnv)
    (toAddr subject messageText : String) :
    (SendEmail env toAddr subject messageText).acquireSleeps.length ≤ 2 ∧
    (SendEmail env toAddr subject messageText).acquireSleeps =
      List.take (SendEmail env toAddr subject messageText).acquireSleeps.length [1, 2] ∧
    (SendEmail env toAddr subject messageText).sendSleeps.length ≤ 2 ∧
    (SendEmail env toAddr subject messageText).sendSleeps =
      List.take (SendEmail env toAddr subject messageText).sendSleeps.length [1, 2] ∧
    ((∀ i, 1 ≤ i → i ≤ 3 → ∃ e, env.getGmailService i = .error e) →
      ∃ e, (SendEmail env toAddr subject messageText).result = .error e) ∧
    ((∀ i, 1 ≤ i → i ≤ 3 → ∃ e, env.send i = .error e) →
      ∃ e, (SendEmail env toAddr subject messageText).result = .error e) := by
  have hacq := retry3_spec env.getGmailService
  have hsub := retry3_spec env.send
  have hone : (SendEmail env toAddr subject messageText).acquireSleeps =
      (retry3 env.getGmailService).2 := by
    simp only [SendEmail]
    cases hga : (retry3 env.getGmailService).1 with
    | error e => simp
    | ok u =>
      cases hp : env.getProfile with
      | error e => simp
      | ok fromEmail =>
        cases hs : (retry3 env.send).1 with
        | error e => simp
        | ok m => simp
  have htwo : (SendEmail env toAddr subject messageText).sendSleeps = [] ∨
      (SendEmail env toAddr subject messageText).sendSleeps =
        (retry3 env.send).2 := by
    simp only [SendEmail]
    cases hga : (retry3 env.getGmailService).1 with
    | error e => exact Or.inl (by simp)
    | ok u =>
      cases hp : env.getProfile with
      | error e => exact Or.inl (by simp)
      | ok fromEmail =>
        cases hs : (retry3 env.send).1 with
        | error e => exact Or.inr (by simp)
        | ok m => exact Or.inr (by simp)
  refine ⟨?_, ?_, ?_, ?_, ?_, ?_⟩
  · rw [hone]; exact hacq.1
  · rw [hone]; exact hacq.2.1
  · cases htwo with
    | inl h => rw [h]; simp
    | inr h => rw [h]; exact hsub.1
  · cases htwo with
    | inl h => rw [h]; simp
    | inr h => rw [h]; exact hsub.2.1
  · intro hall
    have hlen : (retry3 env.getGmailService).2.length + 1 ≤ 3 := by
      have := hacq.1
      omega
    obtain ⟨e, he⟩ := hall ((retry3 env.getGmailService).2.length + 1)
      (by omega) hlen
    have herr : (retry3 env.getGmailService).1 = .error e := hacq.2.2.1.trans he
    simp only [SendEmail, herr]
    exact ⟨_, rfl⟩
  · intro hall
    have hlen : (retry3 env.send).2.length + 1 ≤ 3 := by
      have := hsub.1
      omega
    obtain ⟨e, he⟩ := hall ((retry3 env.send).2.length + 1) (by omega) hlen
    have herr : (retry3 env.send).1 = .error e := hsub.2.2.1.trans he
    simp only [SendEmail]
    cases hga : (retry3 env.getGmailService).1 with
    | error e2 =>
      refine ⟨"unable to retrieve Gmail service after retries: " ++ e2, ?_⟩
      simp
    | ok u =>
      cases hp : env.getProfile with
      | error e2 =>
        refine ⟨"unable to get user profile: " ++ e2, ?_⟩
        simp
      | ok fromEmail =>
        simp only [herr]
        refine ⟨"unable to send email after retries: " ++ e, ?_⟩
        simp

/-- A concrete Gmail environment whose acquisition always fails. -/
def envGmailDown : GmailEnv :=
  ⟨fun _ => .error "oauth2: cannot fetch token", .ok "owner@x.com",
   fun _ => .ok "msg-id-1"⟩

/-- Witness for C6: with acquisition failing on every attempt, the
recorded acquisition sleeps are the 1 s then 2 s backoff and SendEmail
returns an error. -/
theorem sendEmail_retry_discipline_witness :
    (SendEmail envGmailDown "a@x.com" "s" "m").acquireSleeps =
      List.take (SendEmail envGmailDown "a@x.com" "s" "m").acquireSleeps.length
        [1, 2] ∧
    (∃ e, (SendEmail envGmailDown "a@x.com" "s" "m").result = .error e) := by
  have h := sendEmail_retry_discipline envGmailDown "a@x.com" "s" "m"
  exact ⟨h.2.1, h.2.2.2.2.1 (fun i _ _ => ⟨"oauth2: cannot fetch token", rfl⟩)⟩

/-! ### Bounded fan-out concurrency (src/internal/slack/service.go,
getUserEmails goroutines).  Each member lookup goroutine acquires a slot
on the buffered channel `semaphore` (capacity 5) before its users.info
call and releases it afterwards, so a lookup is in flight exactly while
its goroutine holds a slot.  The interleaving of the goroutines is
modelled as a transition system over the per-task phases. -/

/-- The phase of one member-lookup goroutine: not yet admitted by the
semaphore, holding a slot with the lookup in flight, or finished. -/
inductive LookupPhase where
  | idle
  | inflight
  | finished
deriving DecidableEq

/-- The number of lookups currently in flight. -/
def inflightCount (tasks : List LookupPhase) : Nat :=
  tasks.count .inflight

/-- One scheduler step: a goroutine may acquire a semaphore slot only
while fewer than 5 lookups are in flight (the buffered channel of
capacity 5 blocks the send otherwise), and an in-flight lookup may
complete and release its slot at any time. -/
inductive FanoutStep : List LookupPhase → List LookupPhase → Prop where
  | acquire (tasks : List LookupPhase) (i : Nat) (h : i < tasks.length)
      (hidle : tasks.get ⟨i, h⟩ = .idle)
      (hsem : inflightCount tasks < 5) :
      FanoutStep tasks (tasks.set i .inflight)
  | release (tasks : List LookupPhase) (i : Nat) (h : i < tasks.length)
      (hin : tasks.get ⟨i, h⟩ = .inflight) :
      FanoutStep tasks (tasks.set i .finished)

/-- The states reachable by any interleaving of n member-lookup
goroutines, starting with every goroutine not yet admitted. -/
inductive FanoutReachable (n : Nat) : List LookupPhase → Prop where
  | init : FanoutReachable n (List.replicate n .idle)
  | step (s t : List LookupPhase) :
      FanoutReachable n s → FanoutStep s t → FanoutReachable n t

theorem count_set_of_get_ne (l : List LookupPhase) (v : LookupPhase) :
    ∀ i (h : i < l.length), l.get ⟨i, h⟩ ≠ v →
      (l.set i v).count v = l.count v + 1 := by
  induction l with
  | nil => intro i h; simp at h
  | cons a as ih =>
    intro i h hne
    cases i with
    | zero =>
      simp only [List.get] at hne
      simp only [List.set, List.count_cons]
      have h2 : (a == v) = false := beq_eq_false_iff_ne.mpr hne
      rw [h2]
      simp
    | succ j =>
      simp only [List.get] at hne
      simp only [List.set, List.count_cons]
      have hj : j < as.length := Nat.lt_of_succ_lt_succ h
      rw [ih j hj hne]
      omega

theorem count_set_ne_le (l : List LookupPhase) (v x : LookupPhase)
    (hvx : v ≠ x) : ∀ i, (l.set i v).count x ≤ l.count x := by
  induction l with
  | nil => intro i; simp [List.set]
  | cons a as ih =>
    intro i
    cases i with
    | zero =>
      simp only [List.set, List.count_cons]
      have h2 : (v == x) = false := beq_eq_false_iff_ne.mpr hvx
      rw [h2]
      cases hax : (a == x) with
      | true => simp
      | false => simp
    | succ j =>
      simp only [List.set, List.count_cons]
      have := ih j
      cases hax : (a == x) with
      | true => simp; omega
      | false => simp; omega

/-- Claim C9: in every reachable interleaving of the member-lookup
fan-out, for every channel size n, at most 5 lookups are in flight at
any instant. -/
theorem fanout_at_most_five_inflight (n : Nat) (s : List LookupPhase)
    (hr : FanoutReachable n s) : inflightCount s ≤ 5 := by
  induction hr with
  | init =>
    rw [inflightCount]
    simp [List.count_replicate]
  | step s t hs hstep ih =>
    cases hstep with
    | acquire i h hidle hsem =>
      rw [inflightCount,
        count_set_of_get_ne s .inflight i h (by rw [hidle]; decide)]
      rw [inflightCount] at hsem
      omega
    | release i h hin =>
      have hle := count_set_ne_le s .finished .inflight (by decide) i
      rw [inflightCount]
      rw [inflightCount] at ih
      omega

/-- Witness for C9: a concrete reachable state of a 7-member fan-out
(one goroutine admitted from the initial state) has at most 5 lookups in
flight. -/
theorem fanout_at_most_five_inflight_witness :
    inflightCount ((List.replicate 7 LookupPhase.idle).set 0 .inflight) ≤ 5 := by
  exact fanout_at_most_five_inflight 7 _
    (FanoutReachable.step _ _ FanoutReachable.init
      (FanoutStep.acquire _ 0 (by simp) (by simp [List.get]) (by decide)))

/-! ### Credentials manager and SaveCredentials handler
(src/internal/auth/handlers.go) -/

/-- UserCredentials mirrors the Go struct; a field the Go code leaves
unset holds its zero value, the empty string. -/
structure UserCredentials where
  userID : String
  gmailClientID : String
  gmailSecret : String
  gmailRefreshToken : String
  slackBotToken : String
deriving DecidableEq

/-- The in-memory credential map of CredentialsManager (the atomic file
snapshot written on each save mirrors this map and is not modelled
separately). -/
structure CredentialsManager where
  credentials : List (String × UserCredentials)
deriving DecidableEq

/-- CredentialsManager.SaveCredentials, from the source: the map entry
for creds.UserID is replaced by the full new record. -/
def SaveCredentials (cm : CredentialsManager) (creds : UserCredentials) :
    CredentialsManager :=
  ⟨(creds.userID, creds) :: cm.credentials.filter (fun p => p.1 != creds.userID)⟩

/-- CredentialsManager.GetCredentials, from the source: a missing user
is a not-found error, never a default record. -/
def GetCredentials (cm : CredentialsManager) (userID : String) :
    Except String UserCredentials :=
  match cm.credentials.lookup userID with
  | some c => .ok c
  | none => .error ("no credentials found for user " ++ userID)

/-- The decoded body of a phase-1 credentials save request. -/
structure SaveUserCredentialsRequest where
  userID : String
  gmailClientID : String
  gmailSecret : String
  slackBotToken : String
  slackTeamID : String
deriving DecidableEq

/-- The credential-store effect of Handler.SaveCredentials, from the
source: the handler builds a UserCredentials literal from the request
that omits GmailRefreshToken (leaving its zero value "") and stores it
with CredentialsManager.SaveCredentials. -/
def handlerSaveCredentials (cm : CredentialsManager)
    (req : SaveUserCredentialsRequest) : CredentialsManager :=
  SaveCredentials cm
    { userID := req.userID
      gmailClientID := req.gmailClientID
      gmailSecret := req.gmailSecret
      gmailRefreshToken := ""
      slackBotToken := req.slackBotToken }

/-- Claim C10: after a phase-1 credentials save, the stored record for
the request user is in full the one built from the request, whose
GmailRefreshToken field is the empty string: whatever refresh token the
store previously held for that user is erased rather than kept. -/
theorem saveCredentials_erases_refresh_token (cm : CredentialsManager)
    (req : SaveUserCredentialsRequest) :
    GetCredentials (handlerSaveCredentials cm req) req.userID =
      .ok { userID := req.userID
            gmailClientID := req.gmailClientID
            gmailSecret := req.gmailSecret
            gmailRefreshToken := ""
            slackBotToken := req.slackBotToken } := by
  simp [GetCredentials, handlerSaveCredentials, SaveCredentials, List.lookup]
